import Mathlib

/-!
Formal model of the multi-version, session-routed MCP gateway implemented in
`src/versioned-server.ts` (`runVersionedSSECloudServer`).

Modelling conventions:
* JavaScript strings are modelled as `List Char` (`JStr`), so that the
  JavaScript operations used by the gateway — template-literal concatenation
  (`++`), equality, `startsWith` (`List.isPrefixOf`) and truthiness of a
  string (`isEmpty`) — are all executable and provable.
* The two mutable registry objects of the server, `transports` (SSE sessions,
  keyed by composite key) and `httpTransports` (Streamable-HTTP sessions,
  keyed by the transport session id), are modelled as insertion-ordered
  association lists, with JavaScript object semantics: property read
  (`objGet`), property write (`objSet`: overwrite in place, else append) and
  property delete (`objDelete`).
* Transport objects are identified by a numeric `transportId`; delegating a
  request to a transport is modelled by an outcome value naming that
  transport, since the transports themselves are external SDK objects.
-/

namespace VersionedServer

/-- JavaScript strings, modelled as their character sequences. -/
abbrev JStr := List Char

/-- Embed a Lean string literal as a `JStr`. -/
def jstr (s : String) : JStr := s.data

/-- The two protocol versions served by the gateway (`'v1' | 'v2'`). -/
inductive Version where
  | v1
  | v2
deriving DecidableEq, Repr

/-- An entry of the `transports` object: `{ transport, version }`
(interface `VersionedTransport` in `versioned-server.ts`). -/
structure VersionedTransport where
  transportId : Nat
  version : Version
deriving DecidableEq, Repr

/-- The `transports` object: composite key to SSE transport entry. -/
abbrev SSERegistry := List (JStr × VersionedTransport)

/-- An entry of the `httpTransports` object:
`{ transport, version, apiKey }`; `sessionId` records the transport's own
session identifier (`transport.sessionId`). -/
structure HttpEntry where
  transportId : Nat
  sessionId : JStr
  version : Version
  apiKey : JStr
deriving DecidableEq, Repr

/-- The `httpTransports` object, keyed as written by the code
(`httpTransports[sid] = ...`). -/
abbrev HttpRegistry := List (JStr × HttpEntry)

/-- JavaScript object property read `obj[k]` (`undefined` becomes `none`). -/
def objGet (r : List (JStr × α)) (k : JStr) : Option α :=
  (r.find? (fun p => p.1 == k)).map (·.2)

/-- JavaScript object property write `obj[k] = v`: replace in place when the
key exists, otherwise append in insertion order. -/
def objSet (r : List (JStr × α)) (k : JStr) (v : α) : List (JStr × α) :=
  if (r.find? (fun p => p.1 == k)).isSome then
    r.map (fun p => if p.1 == k then (k, v) else p)
  else
    r ++ [(k, v)]

/-- JavaScript object property delete `delete obj[k]`. -/
def objDelete (r : List (JStr × α)) (k : JStr) : List (JStr × α) :=
  r.filter (fun p => p.1 != k)

/-- The composite registry key `` `${apiKey}-${sessionId}` ``. -/
def compositeKeyOf (apiKey sessionId : JStr) : JStr :=
  apiKey ++ jstr "-" ++ sessionId

/-- JavaScript `a || b` on strings (empty string is falsy). -/
def jsOr (a b : JStr) : JStr := if a.isEmpty then b else a

/-- Session-id resolution used by the v1 messages route and both mcp routes:
`query.sessionId || headers['mcp-session-id'] || headers['x-mcp-session-id'] || ''`.
An absent value is the empty string. -/
def resolveSessionId (querySid hdrSid hdrXSid : JStr) : JStr :=
  jsOr (jsOr querySid hdrSid) hdrXSid

/-- Effect of the SSE connect endpoints (`GET /:apiKey/sse` and
`GET /:apiKey/v2/sse`) on the `transports` registry: register the fresh
transport under the composite key with the endpoint's version. -/
def sseConnect (r : SSERegistry) (ver : Version) (apiKey sessionId : JStr)
    (tid : Nat) : SSERegistry :=
  objSet r (compositeKeyOf apiKey sessionId) ⟨tid, ver⟩

/-- Effect of the SSE `res.on('close')` handler: `delete transports[compositeKey]`. -/
def sseClose (r : SSERegistry) (compositeKey : JStr) : SSERegistry :=
  objDelete r compositeKey

/-- Body of the 400 response of the SSE message routes. The current source
sends only `{ error: ... }`; `availableTransports` is kept as an optional
field so that its absence is part of the model. -/
structure MsgErrorBody where
  error : JStr
  availableTransports : Option (List JStr)
deriving DecidableEq, Repr

/-- Outcome of an SSE message POST: either the message is handed to a
registered transport (`handlePostMessage`) or a JSON error response is sent. -/
inductive MsgOutcome where
  | delegated (compositeKey : JStr) (vt : VersionedTransport)
  | rejected (status : Nat) (body : MsgErrorBody)
deriving DecidableEq, Repr

/-- The fallback scan of the v1 messages route:
`Object.entries(transports).filter(([key, vt]) => vt.version === 'v1' && key.startsWith(apiKey + '-'))`. -/
def v1Candidates (r : SSERegistry) (apiKey : JStr) : List (JStr × VersionedTransport) :=
  r.filter (fun p => p.2.version == Version.v1 && (apiKey ++ jstr "-").isPrefixOf p.1)

/-- The v1 messages route (`POST /:apiKey/messages`): direct composite-key
lookup, then the single-candidate fallback, then the `version === 'v1'`
check; otherwise a 400 with `{ error: 'No V1 transport found for sessionId' }`. -/
def v1MessagesOutcome (r : SSERegistry) (apiKey rawSessionId : JStr) : MsgOutcome :=
  let key0 := compositeKeyOf apiKey rawSessionId
  let resolved : Option (JStr × VersionedTransport) :=
    match objGet r key0 with
    | some vt => some (key0, vt)
    | none =>
        match v1Candidates r apiKey with
        | [c] => some c
        | _ => none
  match resolved with
  | some (k, vt) =>
      if vt.version == Version.v1 then
        .delegated k vt
      else
        .rejected 400 ⟨jstr "No V1 transport found for sessionId", none⟩
  | none => .rejected 400 ⟨jstr "No V1 transport found for sessionId", none⟩

/-- The v2 messages route (`POST /:apiKey/v2/messages`): direct composite-key
lookup and the `version === 'v2'` check only — no fallback scan; otherwise a
400 with `{ error: 'No V2 transport found for sessionId' }`. -/
def v2MessagesOutcome (r : SSERegistry) (apiKey sessionId : JStr) : MsgOutcome :=
  let key := compositeKeyOf apiKey sessionId
  match objGet r key with
  | some vt =>
      if vt.version == Version.v2 then
        .delegated key vt
      else
        .rejected 400 ⟨jstr "No V2 transport found for sessionId", none⟩
  | none => .rejected 400 ⟨jstr "No V2 transport found for sessionId", none⟩

/-- A JSON-RPC request id (`body.id`), either a number or a string; an absent
id is `Option.none` and is echoed back as JSON `null`. -/
inductive JsonId where
  | num (n : Int)
  | str (s : JStr)
deriving DecidableEq, Repr

/-- The fields of a parsed JSON request body that the mcp routes inspect. -/
structure McpBody where
  methodName : Option JStr
  reqId : Option JsonId
deriving DecidableEq, Repr

/-- An inbound request to a Streamable-HTTP mcp route: the parsed body (absent
for an empty body) and the three session-id carriers. -/
structure McpRequest where
  body : Option McpBody
  querySessionId : JStr
  hdrSessionId : JStr
  hdrXSessionId : JStr
deriving DecidableEq, Repr

/-- JavaScript `body?.id ?? null`. -/
def bodyIdOf (b : Option McpBody) : Option JsonId :=
  match b with
  | some bd => bd.reqId
  | none => none

/-- A JSON-RPC error object `{ code, message }`. -/
structure RpcError where
  code : Int
  message : JStr
deriving DecidableEq, Repr

/-- Outcome of one request to a Streamable-HTTP mcp route:
delegated to an existing registered transport, a fresh session initialized
(and registered by `onsessioninitialized`), or a JSON-RPC error response
`{ jsonrpc: '2.0', error, id }` with the given HTTP status. -/
inductive McpAction where
  | delegated (sid : JStr) (entry : HttpEntry)
  | initialized (sid : JStr)
  | errorResponse (status : Nat) (err : RpcError) (reqId : Option JsonId)
deriving DecidableEq, Repr

/-- JavaScript truthiness of `body && body.method === 'initialize'`. -/
def isInitializeBody (b : Option McpBody) : Bool :=
  match b with
  | some bd => bd.methodName == some (jstr "initialize")
  | none => false

/-- The try-block of a Streamable-HTTP mcp route (`app.all '/:apiKey/v1/mcp'`
for `ver = v1`, `app.all '/:apiKey/v2/mcp'` for `ver = v2`):
1. resolve the session id from query and headers;
2. if it names a registered entry of the same version and same api key,
   delegate to that transport;
3. else if the body method is `initialize`, create a transport whose
   `onsessioninitialized` callback registers it under the generated session
   id (`freshSid`, modelling `randomUUID()`), and let it handle the request;
4. else respond 400 with `{ code: -32000, message: 'Invalid or missing
   session ID' }` and the request id (or null).
Returns the action together with the resulting `httpTransports` registry.
`mcpSessionHit` is the reuse guard of step 2, the conjunction
`existingSessionId && httpTransports[existingSessionId] &&
httpTransports[existingSessionId].version === ver &&
httpTransports[existingSessionId].apiKey === apiKey`. -/
def mcpSessionHit (ver : Version) (reg : HttpRegistry) (apiKey sid : JStr) :
    Option HttpEntry :=
  if sid.isEmpty then none
  else
    match objGet reg sid with
    | some e => if e.version == ver && e.apiKey == apiKey then some e else none
    | none => none

/-- The mcp route handler; see the comment on `mcpSessionHit`. -/
def handleMcp (ver : Version) (reg : HttpRegistry) (apiKey : JStr)
    (req : McpRequest) (freshSid : JStr) (freshTid : Nat) :
    McpAction × HttpRegistry :=
  let sid := resolveSessionId req.querySessionId req.hdrSessionId req.hdrXSessionId
  match mcpSessionHit ver reg apiKey sid with
  | some e => (.delegated sid e, reg)
  | none =>
      if isInitializeBody req.body then
        (.initialized freshSid, objSet reg freshSid ⟨freshTid, freshSid, ver, apiKey⟩)
      else
        (.errorResponse 400 ⟨-32000, jstr "Invalid or missing session ID"⟩
          (bodyIdOf req.body), reg)

/-- Effect of `transport.onclose` of a Streamable-HTTP transport:
`const sid = transport.sessionId; if (sid && httpTransports[sid]) delete httpTransports[sid]`.
`transportSid` is `none` when the transport never got a session id. -/
def httpOnClose (reg : HttpRegistry) (transportSid : Option JStr) : HttpRegistry :=
  match transportSid with
  | some sid =>
      if !sid.isEmpty && (objGet reg sid).isSome then objDelete reg sid else reg
  | none => reg

/-- One response the mcp route writes: HTTP status, JSON-RPC error object and
echoed request id. -/
structure McpErrorWire where
  status : Nat
  err : RpcError
  reqId : Option JsonId
deriving DecidableEq, Repr

/-- The catch-block of both mcp routes: when an exception reaches it, respond
500 `{ code: -32603, message: 'Internal server error' }` with `body?.id ?? null`
only if `res.headersSent` is still false; otherwise write nothing. -/
def mcpCatchResponses (headersSent : Bool) (body : Option McpBody) :
    List McpErrorWire :=
  if headersSent then []
  else [⟨500, ⟨-32603, jstr "Internal server error"⟩, bodyIdOf body⟩]

/-- All responses written for one mcp request on which the try-block threw:
`written` are the responses already flushed before the throw (`res.headersSent`
is exactly `written ≠ []`), followed by whatever the catch-block writes. -/
def mcpResponsesOnThrow (written : List McpErrorWire) (body : Option McpBody) :
    List McpErrorWire :=
  written ++ mcpCatchResponses (!written.isEmpty) body

/-- The in-memory state of the gateway: the two registry objects. -/
structure GatewayState where
  transports : SSERegistry
  httpTransports : HttpRegistry
deriving DecidableEq, Repr

/-- The `SIGINT` handler: snapshot `Object.entries(transports)`, delete each
entry of `transports` in turn (no transport close method is invoked), then
`process.exit(0)`. Returns the final state and the exit code. -/
def sigintShutdown (s : GatewayState) : GatewayState × Nat :=
  let keys := s.transports.map Prod.fst
  let cleared := keys.foldl (fun acc k => objDelete acc k) s.transports
  ({ s with transports := cleared }, 0)

/-- Observer for the `availableTransports` field of a message-route response
(`none` when the outcome is a delegation or the field is absent). -/
def availableTransportsOf (o : MsgOutcome) : Option (List JStr) :=
  match o with
  | .rejected _ b => b.availableTransports
  | .delegated _ _ => none

/-- Observer: does an mcp action consist of sending an error response with the
given HTTP status? -/
def isErrorWithStatus (a : McpAction) (s : Nat) : Bool :=
  match a with
  | .errorResponse st _ _ => st == s
  | _ => false

/-! Shared lemmas about the JavaScript-object operations. -/

theorem objGet_objDelete_self (r : List (JStr × α)) (k : JStr) :
    objGet (objDelete r k) k = none := by
  induction r with
  | nil => rfl
  | cons p r ih =>
      by_cases h : p.1 = k
      · simp only [objDelete, List.filter_cons] at ih ⊢
        simp [h, ih]
      · simp only [objDelete, objGet, List.filter_cons] at ih ⊢
        simp [h, List.find?, ih]

theorem objDelete_objDelete_self (r : List (JStr × α)) (k : JStr) :
    objDelete (objDelete r k) k = objDelete r k := by
  induction r with
  | nil => rfl
  | cons p r ih =>
      by_cases h : p.1 = k
      · simp only [objDelete, List.filter_cons] at ih ⊢
        simp [h, ih]
      · simp only [objDelete, List.filter_cons] at ih ⊢
        simp [h, ih]

theorem objDelete_of_objGet_none (r : List (JStr × α)) (k : JStr)
    (h : objGet r k = none) : objDelete r k = r := by
  induction r with
  | nil => rfl
  | cons p r ih =>
      by_cases hp : p.1 = k
      · have hfind : (p :: r).find? (fun q => q.1 == k) = some p :=
          List.find?_cons_of_pos _ (by simp [hp])
        have hsome : objGet (p :: r) k = some p.2 := by
          rw [objGet, hfind, Option.map_some']
        rw [h] at hsome
        exact Option.noConfusion hsome
      · have hfind : (p :: r).find? (fun q => q.1 == k) = r.find? (fun q => q.1 == k) :=
          List.find?_cons_of_neg _ (by simp [hp])
        have h' : objGet r k = none := by
          unfold objGet at h ⊢
          rw [hfind] at h
          exact h
        have hf : (p.1 != k) = true := by simp [hp]
        simp only [objDelete, List.filter_cons, hf, if_true]
        have hrec := ih h'
        unfold objDelete at hrec
        rw [hrec]

theorem find?_map_set (r : List (JStr × α)) (k : JStr) (v : α)
    (h : (r.find? (fun p => p.1 == k)).isSome = true) :
    (r.map (fun p => if p.1 == k then (k, v) else p)).find? (fun p => p.1 == k)
      = some (k, v) := by
  induction r with
  | nil => simp at h
  | cons p r ih =>
      by_cases hp : p.1 = k
      · rw [List.map_cons]
        have hfp : (if (p.1 == k) then ((k, v) : JStr × α) else p) = (k, v) := by
          simp [hp]
        rw [hfp]
        exact List.find?_cons_of_pos _ (by simp)
      · rw [List.map_cons]
        have hfp : (if (p.1 == k) then ((k, v) : JStr × α) else p) = p := by
          simp [hp]
        rw [hfp]
        rw [List.find?_cons_of_neg _ (by simp [hp])]
        apply ih
        have hf : (p :: r).find? (fun q => q.1 == k) = r.find? (fun q => q.1 == k) :=
          List.find?_cons_of_neg _ (by simp [hp])
        rw [hf] at h
        exact h

theorem objGet_objSet_self (r : List (JStr × α)) (k : JStr) (v : α) :
    objGet (objSet r k v) k = some v := by
  unfold objSet
  by_cases h : (r.find? (fun p => p.1 == k)).isSome = true
  · rw [if_pos h]
    rw [objGet, find?_map_set r k v h]
    rfl
  · rw [if_neg h]
    rw [objGet]
    have hn : r.find? (fun p => p.1 == k) = none := by
      rcases hf : r.find? (fun p => p.1 == k) with _ | p
      · exact hf
      · rw [hf] at h
        simp at h
    rw [List.find?_append, hn]
    simp [List.find?]

/-! Lemmas about the v1 fallback scan and the message routes. -/

theorem mem_v1Candidates_iff (r : SSERegistry) (apiKey : JStr)
    (p : JStr × VersionedTransport) :
    p ∈ v1Candidates r apiKey ↔
      p ∈ r ∧ p.2.version = Version.v1 ∧ (apiKey ++ jstr "-") <+: p.1 := by
  unfold v1Candidates
  rw [List.mem_filter]
  constructor
  · rintro ⟨hm, hb⟩
    rw [Bool.and_eq_true, beq_iff_eq, List.isPrefixOf_iff_prefix] at hb
    exact ⟨hm, hb.1, hb.2⟩
  · rintro ⟨hm, hv, hpre⟩
    refine ⟨hm, ?_⟩
    rw [Bool.and_eq_true, beq_iff_eq, List.isPrefixOf_iff_prefix]
    exact ⟨hv, hpre⟩

theorem v1MessagesOutcome_fallback (r : SSERegistry) (apiKey sid k : JStr)
    (vt : VersionedTransport)
    (hmiss : objGet r (compositeKeyOf apiKey sid) = none)
    (hcand : v1Candidates r apiKey = [(k, vt)]) :
    v1MessagesOutcome r apiKey sid = .delegated k vt := by
  have hv : vt.version = Version.v1 := by
    have hm : (k, vt) ∈ v1Candidates r apiKey := by
      rw [hcand]; exact List.mem_singleton.mpr rfl
    exact ((mem_v1Candidates_iff r apiKey (k, vt)).mp hm).2.1
  simp only [v1MessagesOutcome]
  rw [hmiss, hcand]
  simp [hv]

theorem v1MessagesOutcome_reject_of_miss (r : SSERegistry) (apiKey sid : JStr)
    (hmiss : objGet r (compositeKeyOf apiKey sid) = none)
    (hlen : (v1Candidates r apiKey).length ≠ 1) :
    v1MessagesOutcome r apiKey sid =
      .rejected 400 ⟨jstr "No V1 transport found for sessionId", none⟩ := by
  simp only [v1MessagesOutcome]
  rw [hmiss]
  match hc : v1Candidates r apiKey with
  | [] => simp
  | [c] => rw [hc] at hlen; simp at hlen
  | c₁ :: c₂ :: cs => simp

theorem v1MessagesOutcome_reject_of_wrong_version (r : SSERegistry)
    (apiKey sid : JStr) (vt : VersionedTransport)
    (hget : objGet r (compositeKeyOf apiKey sid) = some vt)
    (hv : vt.version ≠ Version.v1) :
    v1MessagesOutcome r apiKey sid =
      .rejected 400 ⟨jstr "No V1 transport found for sessionId", none⟩ := by
  simp only [v1MessagesOutcome]
  rw [hget]
  simp [hv]

theorem v2MessagesOutcome_reject_of_wrong_version (r : SSERegistry)
    (apiKey sid : JStr) (vt : VersionedTransport)
    (hget : objGet r (compositeKeyOf apiKey sid) = some vt)
    (hv : vt.version ≠ Version.v2) :
    v2MessagesOutcome r apiKey sid =
      .rejected 400 ⟨jstr "No V2 transport found for sessionId", none⟩ := by
  simp only [v2MessagesOutcome]
  rw [hget]
  simp [hv]

theorem v1MessagesOutcome_delegated_version (r : SSERegistry)
    (apiKey sid k : JStr) (vt : VersionedTransport)
    (h : v1MessagesOutcome r apiKey sid = .delegated k vt) :
    vt.version = Version.v1 := by
  simp only [v1MessagesOutcome] at h
  rcases hget : objGet r (compositeKeyOf apiKey sid) with _ | vt₀
  · rw [hget] at h
    rcases hc : v1Candidates r apiKey with _ | ⟨c, cs⟩
    · rw [hc] at h; simp at h
    · rcases cs with _ | ⟨c₂, cs⟩
      · rw [hc] at h
        by_cases hv : c.2.version = Version.v1
        · simp [hv] at h
          rw [← h.2]; exact hv
        · simp [hv] at h
      · rw [hc] at h; simp at h
  · rw [hget] at h
    by_cases hv : vt₀.version = Version.v1
    · simp [hv] at h
      rw [← h.2]; exact hv
    · simp [hv] at h

theorem v2MessagesOutcome_delegated_version (r : SSERegistry)
    (apiKey sid k : JStr) (vt : VersionedTransport)
    (h : v2MessagesOutcome r apiKey sid = .delegated k vt) :
    vt.version = Version.v2 := by
  simp only [v2MessagesOutcome] at h
  rcases hget : objGet r (compositeKeyOf apiKey sid) with _ | vt₀
  · rw [hget] at h; simp at h
  · rw [hget] at h
    by_cases hv : vt₀.version = Version.v2
    · simp [hv] at h
      rw [← h.2]; exact hv
    · simp [hv] at h

/-! Lemmas about the shutdown loop. -/

theorem foldl_objDelete_eq_filter (keys : List JStr) (r : List (JStr × α)) :
    keys.foldl (fun acc k => objDelete acc k) r
      = r.filter (fun p => !keys.contains p.1) := by
  induction keys generalizing r with
  | nil => simp
  | cons k ks ih =>
      rw [List.foldl_cons, ih]
      unfold objDelete
      rw [List.filter_filter]
      congr 1
      funext p
      by_cases h1 : p.1 = k <;> by_cases h2 : p.1 ∈ ks <;> simp [h1, h2]

theorem filter_not_contains_keys (r : List (JStr × α)) :
    r.filter (fun p => !(r.map Prod.fst).contains p.1) = [] := by
  rw [List.filter_eq_nil_iff]
  intro p hp
  have hm : p.1 ∈ r.map Prod.fst := List.mem_map_of_mem Prod.fst hp
  have hc : (r.map Prod.fst).contains p.1 = true := List.elem_eq_true_of_mem hm
  rw [hc]
  simp

theorem sigintShutdown_eq (s : GatewayState) :
    sigintShutdown s = ({ transports := [], httpTransports := s.httpTransports }, 0) := by
  simp only [sigintShutdown]
  rw [foldl_objDelete_eq_filter, filter_not_contains_keys]

/-! Lemmas about the Streamable-HTTP reuse guard. -/

theorem mcpSessionHit_none_of (ver : Version) (reg : HttpRegistry)
    (apiKey sid : JStr)
    (h : sid.isEmpty = true
      ∨ ∀ e, objGet reg sid = some e → e.version ≠ ver ∨ e.apiKey ≠ apiKey) :
    mcpSessionHit ver reg apiKey sid = none := by
  unfold mcpSessionHit
  split
  · rfl
  · rename_i hemp
    rcases h with hemp' | hm
    · exact absurd hemp' hemp
    · split
      · rename_i e hget
        have hne := hm e hget
        have hb : (e.version == ver && e.apiKey == apiKey) = false := by
          rcases hne with h' | h' <;> simp [h']
        simp [hb]
      · rfl

theorem mcpSessionHit_some (ver : Version) (reg : HttpRegistry)
    (apiKey sid : JStr) (e : HttpEntry)
    (h : mcpSessionHit ver reg apiKey sid = some e) :
    objGet reg sid = some e ∧ e.version = ver ∧ e.apiKey = apiKey := by
  unfold mcpSessionHit at h
  split at h
  · exact Option.noConfusion h
  · split at h
    · rename_i e₀ hget
      split at h
      · rename_i hb
        injection h with he
        subst he
        rw [Bool.and_eq_true, beq_iff_eq, beq_iff_eq] at hb
        exact ⟨hget, hb.1, hb.2⟩
      · exact Option.noConfusion h
    · exact Option.noConfusion h

theorem handleMcp_delegated_inv (ver : Version) (reg : HttpRegistry)
    (apiKey : JStr) (req : McpRequest) (freshSid : JStr) (freshTid : Nat)
    (sid : JStr) (e : HttpEntry)
    (h : (handleMcp ver reg apiKey req freshSid freshTid).1 = .delegated sid e) :
    objGet reg sid = some e ∧ e.version = ver ∧ e.apiKey = apiKey := by
  simp only [handleMcp] at h
  split at h
  · rename_i e₀ hh
    simp only [] at h
    injection h with h1 h2
    subst h1
    subst h2
    exact mcpSessionHit_some ver reg apiKey _ _ hh
  · rename_i hh
    split at h
    · simp at h
    · simp at h

theorem handleMcp_reject_of (ver : Version) (reg : HttpRegistry)
    (apiKey : JStr) (req : McpRequest) (freshSid : JStr) (freshTid : Nat)
    (hmiss : (resolveSessionId req.querySessionId req.hdrSessionId req.hdrXSessionId).isEmpty = true
      ∨ ∀ e, objGet reg (resolveSessionId req.querySessionId req.hdrSessionId req.hdrXSessionId) = some e
          → e.version ≠ ver ∨ e.apiKey ≠ apiKey)
    (hinit : isInitializeBody req.body = false) :
    handleMcp ver reg apiKey req freshSid freshTid
      = (.errorResponse 400 ⟨-32000, jstr "Invalid or missing session ID"⟩
          (bodyIdOf req.body), reg) := by
  simp only [handleMcp]
  rw [mcpSessionHit_none_of ver reg apiKey _ hmiss]
  simp [hinit]

theorem handleMcp_initialize_of (ver : Version) (reg : HttpRegistry)
    (apiKey : JStr) (req : McpRequest) (freshSid : JStr) (freshTid : Nat)
    (hmiss : (resolveSessionId req.querySessionId req.hdrSessionId req.hdrXSessionId).isEmpty = true
      ∨ ∀ e, objGet reg (resolveSessionId req.querySessionId req.hdrSessionId req.hdrXSessionId) = some e
          → e.version ≠ ver ∨ e.apiKey ≠ apiKey)
    (hinit : isInitializeBody req.body = true) :
    handleMcp ver reg apiKey req freshSid freshTid
      = (.initialized freshSid,
         objSet reg freshSid ⟨freshTid, freshSid, ver, apiKey⟩) := by
  simp only [handleMcp]
  rw [mcpSessionHit_none_of ver reg apiKey _ hmiss]
  simp [hinit]

/-! Claim theorems. -/

/-- C1: a Streamable-HTTP request (v1 or v2 mcp endpoint) whose resolved
session id does not match a registered entry of the same version and same API
key, and whose body method is not `initialize`, is answered HTTP 400 with the
JSON-RPC error `{ code: -32000, message: 'Invalid or missing session ID' }`,
the id echoed from the request body (null when absent), and no registry entry
is created (the registry is returned unchanged). -/
theorem claim_C1_mcp_invalid_session (ver : Version) (reg : HttpRegistry)
    (apiKey : JStr) (req : McpRequest) (freshSid : JStr) (freshTid : Nat)
    (hmiss : (resolveSessionId req.querySessionId req.hdrSessionId req.hdrXSessionId).isEmpty = true
      ∨ ∀ e, objGet reg (resolveSessionId req.querySessionId req.hdrSessionId req.hdrXSessionId) = some e
          → e.version ≠ ver ∨ e.apiKey ≠ apiKey)
    (hinit : isInitializeBody req.body = false) :
    handleMcp ver reg apiKey req freshSid freshTid
      = (.errorResponse 400 ⟨-32000, jstr "Invalid or missing session ID"⟩
          (bodyIdOf req.body), reg) :=
  handleMcp_reject_of ver reg apiKey req freshSid freshTid hmiss hinit

/-- C1 witness: Scenario C — `POST /abc123/v1/mcp` with body
`{method: 'tools/list', id: 2}`, no session id anywhere and an empty registry
is answered with the -32000 error echoing id 2, and the registry stays empty. -/
theorem claim_C1_mcp_invalid_session_witness :
    handleMcp Version.v1 [] (jstr "abc123")
        { body := some { methodName := some (jstr "tools/list"), reqId := some (.num 2) },
          querySessionId := [], hdrSessionId := [], hdrXSessionId := [] }
        (jstr "fresh") 0
      = (.errorResponse 400 ⟨-32000, jstr "Invalid or missing session ID"⟩
          (some (.num 2)), []) :=
  claim_C1_mcp_invalid_session Version.v1 [] (jstr "abc123")
    { body := some { methodName := some (jstr "tools/list"), reqId := some (.num 2) },
      querySessionId := [], hdrSessionId := [], hdrXSessionId := [] }
    (jstr "fresh") 0 (Or.inl (by decide)) (by decide)

/-- C7 counterexample: the claim says the SIGINT handler closes and clears
both registries, but on a state with one SSE session and one Streamable-HTTP
session it leaves the `httpTransports` registry untouched and non-empty. -/
theorem claim_C7_counterexample :
    sigintShutdown
        { transports := [(jstr "abc-s1", ⟨1, Version.v1⟩)],
          httpTransports := [(jstr "h1", ⟨2, jstr "h1", Version.v2, jstr "abc"⟩)] }
      = ({ transports := [],
           httpTransports := [(jstr "h1", ⟨2, jstr "h1", Version.v2, jstr "abc"⟩)] }, 0)
    ∧ ([(jstr "h1", (⟨2, jstr "h1", Version.v2, jstr "abc"⟩ : HttpEntry))] : HttpRegistry)
        ≠ [] := by
  constructor
  · decide
  · decide

/-- C7 (amended): on receipt of SIGINT the handler deletes every entry of the
SSE `transports` registry (invoking no transport close method), leaving it
empty, leaves the Streamable-HTTP `httpTransports` registry untouched, and
exits the process with status 0. -/
theorem claim_C7_amended_shutdown (s : GatewayState) :
    sigintShutdown s = ({ transports := [], httpTransports := s.httpTransports }, 0) :=
  sigintShutdown_eq s

/-- C8: session removal is idempotent — deleting the same composite key twice
from the SSE registry equals deleting it once and leaves the key absent,
deleting an absent key is a no-op, and the Streamable-HTTP `onclose` removal is
likewise idempotent and a no-op for a session id that is not registered. -/
theorem claim_C8_remove_idempotent (r : SSERegistry) (hr : HttpRegistry)
    (k : JStr) (tsid : Option JStr) :
    sseClose (sseClose r k) k = sseClose r k
    ∧ objGet (sseClose r k) k = none
    ∧ (objGet r k = none → sseClose r k = r)
    ∧ httpOnClose (httpOnClose hr tsid) tsid = httpOnClose hr tsid
    ∧ (∀ sid, tsid = some sid → objGet hr sid = none → httpOnClose hr tsid = hr) := by
  refine ⟨objDelete_objDelete_self r k, objGet_objDelete_self r k,
    objDelete_of_objGet_none r k, ?_, ?_⟩
  · cases tsid with
    | none => rfl
    | some sid =>
        simp only [httpOnClose]
        by_cases hg : (!sid.isEmpty && (objGet hr sid).isSome) = true
        · rw [if_pos hg]
          have h2 : objGet (objDelete hr sid) sid = none := objGet_objDelete_self hr sid
          rw [if_neg (by simp [h2])]
        · rw [if_neg hg, if_neg hg]
  · intro sid hts hget
    subst hts
    simp only [httpOnClose]
    rw [if_neg (by simp [hget])]

/-- C8 witness: concrete idempotent removals — removing key `abc-s1` twice
from a one-entry SSE registry, removing the absent key `abc-zz`, and firing
`onclose` for the unregistered http session id `zz`. -/
theorem claim_C8_remove_idempotent_witness :
    sseClose (sseClose [(jstr "abc-s1", ⟨1, Version.v1⟩)] (jstr "abc-s1")) (jstr "abc-s1")
        = sseClose [(jstr "abc-s1", ⟨1, Version.v1⟩)] (jstr "abc-s1")
    ∧ sseClose [(jstr "abc-s1", (⟨1, Version.v1⟩ : VersionedTransport))] (jstr "abc-zz")
        = [(jstr "abc-s1", ⟨1, Version.v1⟩)]
    ∧ httpOnClose [(jstr "h1", ⟨2, jstr "h1", Version.v1, jstr "abc"⟩)] (some (jstr "zz"))
        = [(jstr "h1", ⟨2, jstr "h1", Version.v1, jstr "abc"⟩)] :=
  ⟨(claim_C8_remove_idempotent [(jstr "abc-s1", ⟨1, Version.v1⟩)]
      [(jstr "h1", ⟨2, jstr "h1", Version.v1, jstr "abc"⟩)] (jstr "abc-s1") none).1,
   (claim_C8_remove_idempotent [(jstr "abc-s1", ⟨1, Version.v1⟩)]
      [(jstr "h1", ⟨2, jstr "h1", Version.v1, jstr "abc"⟩)] (jstr "abc-zz") none).2.2.1
      (by decide),
   (claim_C8_remove_idempotent [(jstr "abc-s1", ⟨1, Version.v1⟩)]
      [(jstr "h1", ⟨2, jstr "h1", Version.v1, jstr "abc"⟩)] (jstr "abc-zz")
      (some (jstr "zz"))).2.2.2.2 (jstr "zz") rfl (by decide)⟩

/-- C2 counterexample: the claim says a session-id match whose registered
version differs from the endpoint's version is rejected with 400; but a v2 mcp
request carrying the session id of a registered v1 session, with body method
`initialize`, is not rejected — a fresh v2 session is initialized instead. -/
theorem claim_C2_counterexample :
    (handleMcp Version.v2 [(jstr "s1", ⟨1, jstr "s1", Version.v1, jstr "abc"⟩)]
        (jstr "abc")
        { body := some { methodName := some (jstr "initialize"), reqId := some (.num 3) },
          querySessionId := jstr "s1", hdrSessionId := [], hdrXSessionId := [] }
        (jstr "s2") 7).1
      = .initialized (jstr "s2")
    ∧ isErrorWithStatus
        (handleMcp Version.v2 [(jstr "s1", ⟨1, jstr "s1", Version.v1, jstr "abc"⟩)]
          (jstr "abc")
          { body := some { methodName := some (jstr "initialize"), reqId := some (.num 3) },
            querySessionId := jstr "s1", hdrSessionId := [], hdrXSessionId := [] }
          (jstr "s2") 7).1 400
      = false := by
  constructor
  · decide
  · decide

/-- C2 (amended): version isolation — a message or mcp request is only ever
delegated to a registered session of the endpoint's own version (and, for mcp,
of the same API key); a session-id match of differing version is rejected with
400 on both messages endpoints, and on an mcp endpoint it is rejected with 400
when the body method is not `initialize`, while an `initialize` body creates a
fresh session of the endpoint's version instead of routing. -/
theorem claim_C2_amended_version_isolation (r : SSERegistry) (reg : HttpRegistry)
    (ver : Version) (apiKey sid k : JStr) (vt : VersionedTransport) (e : HttpEntry)
    (req : McpRequest) (freshSid : JStr) (freshTid : Nat) :
    (v1MessagesOutcome r apiKey sid = .delegated k vt → vt.version = Version.v1)
    ∧ (v2MessagesOutcome r apiKey sid = .delegated k vt → vt.version = Version.v2)
    ∧ ((handleMcp ver reg apiKey req freshSid freshTid).1 = .delegated k e
        → objGet reg k = some e ∧ e.version = ver ∧ e.apiKey = apiKey)
    ∧ (objGet r (compositeKeyOf apiKey sid) = some vt → vt.version ≠ Version.v1
        → v1MessagesOutcome r apiKey sid
            = .rejected 400 ⟨jstr "No V1 transport found for sessionId", none⟩)
    ∧ (objGet r (compositeKeyOf apiKey sid) = some vt → vt.version ≠ Version.v2
        → v2MessagesOutcome r apiKey sid
            = .rejected 400 ⟨jstr "No V2 transport found for sessionId", none⟩)
    ∧ (∀ e', objGet reg (resolveSessionId req.querySessionId req.hdrSessionId req.hdrXSessionId)
            = some e'
        → e'.version ≠ ver
        → isInitializeBody req.body = false
        → handleMcp ver reg apiKey req freshSid freshTid
            = (.errorResponse 400 ⟨-32000, jstr "Invalid or missing session ID"⟩
                (bodyIdOf req.body), reg))
    ∧ (∀ e', objGet reg (resolveSessionId req.querySessionId req.hdrSessionId req.hdrXSessionId)
            = some e'
        → e'.version ≠ ver
        → isInitializeBody req.body = true
        → handleMcp ver reg apiKey req freshSid freshTid
            = (.initialized freshSid,
               objSet reg freshSid ⟨freshTid, freshSid, ver, apiKey⟩)) := by
  refine ⟨v1MessagesOutcome_delegated_version r apiKey sid k vt,
    v2MessagesOutcome_delegated_version r apiKey sid k vt,
    handleMcp_delegated_inv ver reg apiKey req freshSid freshTid k e,
    v1MessagesOutcome_reject_of_wrong_version r apiKey sid vt,
    v2MessagesOutcome_reject_of_wrong_version r apiKey sid vt,
    ?_, ?_⟩
  · intro e' hget hv hinit
    refine handleMcp_reject_of ver reg apiKey req freshSid freshTid (Or.inr ?_) hinit
    intro e'' hget''
    rw [hget''] at hget
    injection hget with he
    subst he
    exact Or.inl hv
  · intro e' hget hv hinit
    refine handleMcp_initialize_of ver reg apiKey req freshSid freshTid (Or.inr ?_) hinit
    intro e'' hget''
    rw [hget''] at hget
    injection hget with he
    subst he
    exact Or.inl hv

/-- C2 witness: on a registry holding the v1 SSE session `abc-s1` and the v1
http session `s1`, a v2 messages POST for that session id is rejected with
400, a v2 mcp `tools/list` request carrying `s1` is rejected with -32000, and
a delegated v1 messages POST resolves to a v1 entry. -/
theorem claim_C2_amended_version_isolation_witness :
    v2MessagesOutcome [(jstr "abc-s1", ⟨1, Version.v1⟩)] (jstr "abc") (jstr "s1")
        = .rejected 400 ⟨jstr "No V2 transport found for sessionId", none⟩
    ∧ handleMcp Version.v2 [(jstr "s1", ⟨2, jstr "s1", Version.v1, jstr "abc"⟩)]
        (jstr "abc")
        { body := some { methodName := some (jstr "tools/list"), reqId := some (.num 5) },
          querySessionId := jstr "s1", hdrSessionId := [], hdrXSessionId := [] }
        (jstr "s9") 9
        = (.errorResponse 400 ⟨-32000, jstr "Invalid or missing session ID"⟩
            (some (.num 5)), [(jstr "s1", ⟨2, jstr "s1", Version.v1, jstr "abc"⟩)])
    ∧ (⟨1, Version.v1⟩ : VersionedTransport).version = Version.v1 :=
  ⟨(claim_C2_amended_version_isolation [(jstr "abc-s1", ⟨1, Version.v1⟩)] []
      Version.v2 (jstr "abc") (jstr "s1") (jstr "abc-s1") ⟨1, Version.v1⟩
      ⟨0, [], Version.v1, []⟩
      { body := none, querySessionId := [], hdrSessionId := [], hdrXSessionId := [] }
      [] 0).2.2.2.2.1 (by decide) (by decide),
   (claim_C2_amended_version_isolation [] [(jstr "s1", ⟨2, jstr "s1", Version.v1, jstr "abc"⟩)]
      Version.v2 (jstr "abc") (jstr "s1") (jstr "s1") ⟨1, Version.v1⟩
      ⟨2, jstr "s1", Version.v1, jstr "abc"⟩
      { body := some { methodName := some (jstr "tools/list"), reqId := some (.num 5) },
        querySessionId := jstr "s1", hdrSessionId := [], hdrXSessionId := [] }
      (jstr "s9") 9).2.2.2.2.2.1 ⟨2, jstr "s1", Version.v1, jstr "abc"⟩
      (by decide) (by decide) (by decide),
   (claim_C2_amended_version_isolation [(jstr "abc-s1", ⟨1, Version.v1⟩)] []
      Version.v1 (jstr "abc") (jstr "s1") (jstr "abc-s1") ⟨1, Version.v1⟩
      ⟨0, [], Version.v1, []⟩
      { body := none, querySessionId := [], hdrSessionId := [], hdrXSessionId := [] }
      [] 0).1 (by decide)⟩

/-- C3: v1 fallback determinism — when the composite-key lookup misses, a
message POST is routed to the unique v1 candidate for the API key if exactly
one exists, is rejected with 400 when zero or two-or-more exist, and the v2
messages path never applies the fallback (a miss is always a 400 there). -/
theorem claim_C3_fallback_determinism (r : SSERegistry) (apiKey sid : JStr)
    (hmiss : objGet r (compositeKeyOf apiKey sid) = none) :
    (∀ k vt, v1Candidates r apiKey = [(k, vt)]
        → v1MessagesOutcome r apiKey sid = .delegated k vt)
    ∧ ((v1Candidates r apiKey).length ≠ 1
        → v1MessagesOutcome r apiKey sid
            = .rejected 400 ⟨jstr "No V1 transport found for sessionId", none⟩)
    ∧ v2MessagesOutcome r apiKey sid
        = .rejected 400 ⟨jstr "No V2 transport found for sessionId", none⟩ := by
  refine ⟨?_, ?_, ?_⟩
  · intro k vt hc
    exact v1MessagesOutcome_fallback r apiKey sid k vt hmiss hc
  · intro hlen
    exact v1MessagesOutcome_reject_of_miss r apiKey sid hmiss hlen
  · simp only [v2MessagesOutcome]
    rw [hmiss]

/-- C3 witness: with one v1 session `abc-s1` and one v2 session `xyz-t1`
registered, a v1 messages POST for `abc` with unknown session id `zzz` falls
back to `abc-s1`; for `xyz` (zero v1 candidates) it is rejected; and a v2
messages POST for `abc` with the same unknown id is rejected. -/
theorem claim_C3_fallback_determinism_witness :
    v1MessagesOutcome
        [(jstr "abc-s1", ⟨1, Version.v1⟩), (jstr "xyz-t1", ⟨2, Version.v2⟩)]
        (jstr "abc") (jstr "zzz")
      = .delegated (jstr "abc-s1") ⟨1, Version.v1⟩
    ∧ v1MessagesOutcome
        [(jstr "abc-s1", ⟨1, Version.v1⟩), (jstr "xyz-t1", ⟨2, Version.v2⟩)]
        (jstr "xyz") (jstr "zzz")
      = .rejected 400 ⟨jstr "No V1 transport found for sessionId", none⟩
    ∧ v2MessagesOutcome
        [(jstr "abc-s1", ⟨1, Version.v1⟩), (jstr "xyz-t1", ⟨2, Version.v2⟩)]
        (jstr "abc") (jstr "zzz")
      = .rejected 400 ⟨jstr "No V2 transport found for sessionId", none⟩ :=
  ⟨(claim_C3_fallback_determinism
      [(jstr "abc-s1", ⟨1, Version.v1⟩), (jstr "xyz-t1", ⟨2, Version.v2⟩)]
      (jstr "abc") (jstr "zzz") (by decide)).1 (jstr "abc-s1") ⟨1, Version.v1⟩ (by decide),
   (claim_C3_fallback_determinism
      [(jstr "abc-s1", ⟨1, Version.v1⟩), (jstr "xyz-t1", ⟨2, Version.v2⟩)]
      (jstr "xyz") (jstr "zzz") (by decide)).2.1 (by decide),
   (claim_C3_fallback_determinism
      [(jstr "abc-s1", ⟨1, Version.v1⟩), (jstr "xyz-t1", ⟨2, Version.v2⟩)]
      (jstr "abc") (jstr "zzz") (by decide)).2.2⟩

/-- C9: on the v1 messages path, a composite-key hit on a registered v2
session makes the direct lookup non-empty, so the single-candidate fallback is
never attempted and the request is rejected with 400 — in particular even
when exactly one v1 session exists for that API key. -/
theorem claim_C9_v2_hit_blocks_fallback (r : SSERegistry) (apiKey sid : JStr)
    (vt : VersionedTransport)
    (hget : objGet r (compositeKeyOf apiKey sid) = some vt)
    (hv : vt.version = Version.v2) :
    v1MessagesOutcome r apiKey sid
      = .rejected 400 ⟨jstr "No V1 transport found for sessionId", none⟩ := by
  apply v1MessagesOutcome_reject_of_wrong_version r apiKey sid vt hget
  rw [hv]
  decide

/-- C9 witness: registry with the v2 session `abc-s2` and exactly one v1
session `abc-s1`; a v1 messages POST for `abc` with session id `s2` hits the
v2 entry and is rejected, despite the single v1 candidate. -/
theorem claim_C9_v2_hit_blocks_fallback_witness :
    (v1Candidates [(jstr "abc-s2", ⟨2, Version.v2⟩), (jstr "abc-s1", ⟨1, Version.v1⟩)]
        (jstr "abc")).length = 1
    ∧ v1MessagesOutcome
        [(jstr "abc-s2", ⟨2, Version.v2⟩), (jstr "abc-s1", ⟨1, Version.v1⟩)]
        (jstr "abc") (jstr "s2")
      = .rejected 400 ⟨jstr "No V1 transport found for sessionId", none⟩ :=
  ⟨by decide,
   claim_C9_v2_hit_blocks_fallback
      [(jstr "abc-s2", ⟨2, Version.v2⟩), (jstr "abc-s1", ⟨1, Version.v1⟩)]
      (jstr "abc") (jstr "s2") ⟨2, Version.v2⟩ (by decide) rfl⟩

/-- C10: the fallback scan selects candidates by string-prefix match on the
composite key, so a v1 session registered for API key K2 = K ++ '-' ++ suffix
is counted as a candidate for API key K; and when it is the only candidate
and the direct lookup misses, a v1 message POST for K is routed to K2's
session, crossing the API-key boundary. -/
theorem claim_C10_prefix_crosses_api_keys (r : SSERegistry)
    (K suffix sid sid2 : JStr) (vt : VersionedTransport) :
    ((compositeKeyOf (compositeKeyOf K suffix) sid2, vt) ∈ r
      → vt.version = Version.v1
      → (compositeKeyOf (compositeKeyOf K suffix) sid2, vt) ∈ v1Candidates r K)
    ∧ (objGet r (compositeKeyOf K sid) = none
      → v1Candidates r K = [(compositeKeyOf (compositeKeyOf K suffix) sid2, vt)]
      → v1MessagesOutcome r K sid
          = .delegated (compositeKeyOf (compositeKeyOf K suffix) sid2) vt) := by
  constructor
  · intro hm hv
    rw [mem_v1Candidates_iff]
    refine ⟨hm, hv, ?_⟩
    show (K ++ jstr "-") <+: compositeKeyOf (compositeKeyOf K suffix) sid2
    refine ⟨suffix ++ jstr "-" ++ sid2, ?_⟩
    simp [compositeKeyOf, List.append_assoc]
  · intro hmiss hcand
    exact v1MessagesOutcome_fallback r K sid _ vt hmiss hcand

/-- C10 witness: the only v1 session belongs to API key `abc-x`; a v1 message
POST for API key `abc` with unknown session id `zzz` is routed to key
`abc-x`'s session `abc-x-s1`. -/
theorem claim_C10_prefix_crosses_api_keys_witness :
    (compositeKeyOf (compositeKeyOf (jstr "abc") (jstr "x")) (jstr "s1"), (⟨1, Version.v1⟩ : VersionedTransport))
        ∈ v1Candidates [(jstr "abc-x-s1", ⟨1, Version.v1⟩)] (jstr "abc")
    ∧ v1MessagesOutcome [(jstr "abc-x-s1", ⟨1, Version.v1⟩)] (jstr "abc") (jstr "zzz")
        = .delegated (compositeKeyOf (compositeKeyOf (jstr "abc") (jstr "x")) (jstr "s1"))
            ⟨1, Version.v1⟩ :=
  ⟨(claim_C10_prefix_crosses_api_keys [(jstr "abc-x-s1", ⟨1, Version.v1⟩)]
      (jstr "abc") (jstr "x") (jstr "zzz") (jstr "s1") ⟨1, Version.v1⟩).1
      (by decide) rfl,
   (claim_C10_prefix_crosses_api_keys [(jstr "abc-x-s1", ⟨1, Version.v1⟩)]
      (jstr "abc") (jstr "x") (jstr "zzz") (jstr "s1") ⟨1, Version.v1⟩).2
      (by decide) (by decide)⟩

/-- C4 counterexample: the claim says both registries key entries by
apiKey + separator + sessionId; but after one v1 initialize for API key `abc`
with generated session id `s1`, the Streamable-HTTP registry holds its entry
under the key `s1` alone, which is not the composite of the entry's own
apiKey and sessionId. -/
theorem claim_C4_counterexample :
    (handleMcp Version.v1 [] (jstr "abc")
        { body := some { methodName := some (jstr "initialize"), reqId := some (.num 1) },
          querySessionId := [], hdrSessionId := [], hdrXSessionId := [] }
        (jstr "s1") 4).2
      = [(jstr "s1", ⟨4, jstr "s1", Version.v1, jstr "abc"⟩)]
    ∧ ¬ (∀ p ∈ [(jstr "s1", (⟨4, jstr "s1", Version.v1, jstr "abc"⟩ : HttpEntry))],
          p.1 = compositeKeyOf p.2.apiKey p.2.sessionId) := by
  constructor
  · decide
  · decide

/-- C4 (amended): the SSE registry keys every entry by the composite
apiKey + separator + sessionId, and two different API keys given the same
session identifier never collide there; the Streamable-HTTP registry instead
keys a newly initialized session by its generated session id alone, storing
the apiKey inside the entry (it is compared on lookup, not in the key). -/
theorem claim_C4_amended_registry_keys (r : SSERegistry) (ver : Version)
    (apiKey apiKey2 sid : JStr) (tid : Nat) (reg : HttpRegistry)
    (req : McpRequest) (freshSid : JStr) (freshTid : Nat) :
    objGet (sseConnect r ver apiKey sid tid) (compositeKeyOf apiKey sid)
        = some ⟨tid, ver⟩
    ∧ (apiKey ≠ apiKey2 → compositeKeyOf apiKey sid ≠ compositeKeyOf apiKey2 sid)
    ∧ ((resolveSessionId req.querySessionId req.hdrSessionId req.hdrXSessionId).isEmpty = true
        → isInitializeBody req.body = true
        → (handleMcp ver reg apiKey req freshSid freshTid).2
            = objSet reg freshSid ⟨freshTid, freshSid, ver, apiKey⟩) := by
  refine ⟨objGet_objSet_self r (compositeKeyOf apiKey sid) ⟨tid, ver⟩, ?_, ?_⟩
  · intro hne hc
    unfold compositeKeyOf at hc
    exact hne (List.append_cancel_right (List.append_cancel_right hc))
  · intro hemp hinit
    rw [handleMcp_initialize_of ver reg apiKey req freshSid freshTid (Or.inl hemp) hinit]

/-- C4 witness: registering SSE session `s1` for `abc` stores it under key
`abc-s1`; the composite keys of `abc` and `abcd` with session `s1` differ; and
a v1 initialize for `abc` with generated id `h7` adds the http entry under key
`h7`. -/
theorem claim_C4_amended_registry_keys_witness :
    objGet (sseConnect [] Version.v1 (jstr "abc") (jstr "s1") 1)
        (compositeKeyOf (jstr "abc") (jstr "s1")) = some ⟨1, Version.v1⟩
    ∧ compositeKeyOf (jstr "abc") (jstr "s1") ≠ compositeKeyOf (jstr "abcd") (jstr "s1")
    ∧ (handleMcp Version.v1 [] (jstr "abc")
        { body := some { methodName := some (jstr "initialize"), reqId := none },
          querySessionId := [], hdrSessionId := [], hdrXSessionId := [] }
        (jstr "h7") 3).2
      = objSet [] (jstr "h7") ⟨3, jstr "h7", Version.v1, jstr "abc"⟩ :=
  ⟨(claim_C4_amended_registry_keys [] Version.v1 (jstr "abc") (jstr "abcd") (jstr "s1") 1
      [] { body := none, querySessionId := [], hdrSessionId := [], hdrXSessionId := [] }
      [] 0).1,
   (claim_C4_amended_registry_keys [] Version.v1 (jstr "abc") (jstr "abcd") (jstr "s1") 1
      [] { body := none, querySessionId := [], hdrSessionId := [], hdrXSessionId := [] }
      [] 0).2.1 (by decide),
   (claim_C4_amended_registry_keys [] Version.v1 (jstr "abc") (jstr "abcd") (jstr "s1") 1
      [] { body := some { methodName := some (jstr "initialize"), reqId := none },
           querySessionId := [], hdrSessionId := [], hdrXSessionId := [] }
      (jstr "h7") 3).2.2 (by decide) (by decide)⟩

/-- C5 counterexample: with two v1 SSE sessions registered for API key `abc`,
a v1 message POST with no session id is answered 400, but the response body is
`{ error: 'No V1 transport found for sessionId' }` with no
`availableTransports` field at all, contradicting the claimed
`availableTransports` list of length 2. -/
theorem claim_C5_counterexample :
    v1MessagesOutcome
        [(jstr "abc-s1", ⟨1, Version.v1⟩), (jstr "abc-s2", ⟨2, Version.v1⟩)]
        (jstr "abc") []
      = .rejected 400 ⟨jstr "No V1 transport found for sessionId", none⟩
    ∧ availableTransportsOf
        (v1MessagesOutcome
          [(jstr "abc-s1", ⟨1, Version.v1⟩), (jstr "abc-s2", ⟨2, Version.v1⟩)]
          (jstr "abc") [])
      = none := by
  constructor
  · decide
  · decide

/-- C5 (amended): when two v1 SSE sessions are registered for the same API key
and a message POST with no session id arrives at that key's v1 messages
endpoint, the response is HTTP 400 with body
`{ error: 'No V1 transport found for sessionId' }` and no
`availableTransports` field (the current source no longer includes one). -/
theorem claim_C5_amended_ambiguous_reject (r : SSERegistry) (apiKey : JStr)
    (hmiss : objGet r (compositeKeyOf apiKey []) = none)
    (hlen : (v1Candidates r apiKey).length = 2) :
    v1MessagesOutcome r apiKey []
      = .rejected 400 ⟨jstr "No V1 transport found for sessionId", none⟩
    ∧ availableTransportsOf (v1MessagesOutcome r apiKey []) = none := by
  have h := v1MessagesOutcome_reject_of_miss r apiKey [] hmiss (by rw [hlen]; decide)
  refine ⟨h, ?_⟩
  rw [h]
  rfl

/-- C5 witness: the amended statement at the concrete two-session registry of
the counterexample. -/
theorem claim_C5_amended_ambiguous_reject_witness :
    v1MessagesOutcome
        [(jstr "abc-s1", ⟨1, Version.v1⟩), (jstr "abc-s2", ⟨2, Version.v1⟩)]
        (jstr "abc") []
      = .rejected 400 ⟨jstr "No V1 transport found for sessionId", none⟩
    ∧ availableTransportsOf
        (v1MessagesOutcome
          [(jstr "abc-s1", ⟨1, Version.v1⟩), (jstr "abc-s2", ⟨2, Version.v1⟩)]
          (jstr "abc") [])
      = none :=
  claim_C5_amended_ambiguous_reject
    [(jstr "abc-s1", ⟨1, Version.v1⟩), (jstr "abc-s2", ⟨2, Version.v1⟩)]
    (jstr "abc") (by decide) (by decide)

/-- C6: for an exception thrown while handling a Streamable-HTTP request, if
no response was written yet the handler writes exactly one 500 response with
JSON-RPC error -32603 'Internal server error' echoing the request body's id
(null when absent); if a response was already written, nothing further is
written (no second response ever). -/
theorem claim_C6_catch_once (written : List McpErrorWire) (b : Option McpBody) :
    (written = [] → mcpResponsesOnThrow written b
        = [⟨500, ⟨-32603, jstr "Internal server error"⟩, bodyIdOf b⟩])
    ∧ (written ≠ [] → mcpResponsesOnThrow written b = written) := by
  constructor
  · intro h
    subst h
    rfl
  · intro h
    unfold mcpResponsesOnThrow mcpCatchResponses
    have he : written.isEmpty = false := by
      cases written with
      | nil => exact absurd rfl h
      | cons a l => rfl
    rw [he]
    simp

/-- C6 witness: a throw before any write on a request with id 9 produces
exactly the single -32603 response echoing id 9; a throw after the 400
invalid-session response was written produces no second response. -/
theorem claim_C6_catch_once_witness :
    mcpResponsesOnThrow [] (some { methodName := some (jstr "tools/list"), reqId := some (.num 9) })
      = [⟨500, ⟨-32603, jstr "Internal server error"⟩, some (.num 9)⟩]
    ∧ mcpResponsesOnThrow
        [⟨400, ⟨-32000, jstr "Invalid or missing session ID"⟩, none⟩]
        (some { methodName := some (jstr "tools/list"), reqId := some (.num 9) })
      = [⟨400, ⟨-32000, jstr "Invalid or missing session ID"⟩, none⟩] :=
  ⟨(claim_C6_catch_once [] (some { methodName := some (jstr "tools/list"), reqId := some (.num 9) })).1
      rfl,
   (claim_C6_catch_once [⟨400, ⟨-32000, jstr "Invalid or missing session ID"⟩, none⟩]
      (some { methodName := some (jstr "tools/list"), reqId := some (.num 9) })).2
      (by decide)⟩

end VersionedServer
